import Mathlib

/-!
# Verification of the simpledb benchmark-sweep harness

Shallow embedding of the Python benchmark scripts
(`scripts/compare_benchmarks.py`, `scripts/run_regime_matrix.py`,
`scripts/run_all_benchmarks.py`, `scripts/bench/run_buffer_pool.py`,
`scripts/bench/generate_io_mode_charts.py`,
`scripts/bench/generate_scaling_charts.py`) together with theorems settling
the specification claims about the regression comparator, the subject
invoker, the grid orchestrator and the report renderers.

Numeric values are modelled as rationals; every arithmetic fact proved below
is either guarded away from the float-inexact regime or evaluated at inputs
where IEEE-754 double arithmetic is exact, so the rational model is faithful
where it is used.  Python division, which raises `ZeroDivisionError` on a
zero divisor, is modelled by `pyDiv : ℚ → ℚ → Option ℚ`.
-/

namespace SimpleDB

/-- A measurement record as produced by the benchmark subject:
`{"name": ..., "unit": ..., "value": ..., ["p50", "p95", "std_dev"]}`.
The three statistics fields are optional. -/
structure MeasurementRecord where
  name : String
  unit : String
  value : ℚ
  p50 : Option ℚ := none
  p95 : Option ℚ := none
  std_dev : Option ℚ := none
deriving Repr, DecidableEq

/-- Python division: raises `ZeroDivisionError` (modelled as `none`) when the
divisor is zero. -/
def pyDiv (a b : ℚ) : Option ℚ :=
  if b = 0 then none else some (a / b)

/-- Embeds `calculate_change` from `scripts/compare_benchmarks.py`:
`if base == 0: return 0` then `((pr - base) / base) * 100`.  The zero guard
short-circuits before the division, so the division itself is reached only
with a nonzero divisor; the `Option` records that no fault escapes. -/
def calculate_change (base pr : ℚ) : Option ℚ :=
  if base = 0 then some 0
  else (pyDiv (pr - base) base).map (· * 100)

theorem calculate_change_isSome (base pr : ℚ) :
    (calculate_change base pr).isSome := by
  unfold calculate_change pyDiv
  by_cases h : base = 0 <;> simp [h]

/-- The status emoji attached to a comparison row in
`compare_benchmarks.py` (`✅` / `⚠️ slower` / `🚀 faster` / `❌ missing`). -/
inductive Status where
  | neutral      -- "✅"
  | slower       -- "⚠️ slower"
  | faster       -- "🚀 faster"
  | missing      -- "❌ missing"
deriving Repr, DecidableEq

/-- Embeds the status selection of `compare_benchmarks` (lines 98–104):
`if abs(change) < 5: "✅" elif change > 5: "⚠️ slower" else: "🚀 faster"`. -/
def statusOf (change : ℚ) : Status :=
  if |change| < 5 then .neutral
  else if change > 5 then .slower
  else .faster

/-- Embeds the per-row flag of `summarise_regime` in `run_regime_matrix.py`
(line 291): `" 🚀" if pct < -5 else (" ⚠" if pct > 5 else "")`. -/
def summariseFlag (pct : ℚ) : Status :=
  if pct < -5 then .faster
  else if pct > 5 then .slower
  else .neutral

/-- Embeds the per-row percentage of `summarise_regime` (line 290):
`pct = ((d - b) / b * 100) if b else 0` — the Python truthiness guard `if b`
short-circuits the division away when `b == 0`. -/
def summarisePct (b d : ℚ) : ℚ :=
  if b ≠ 0 then (d - b) / b * 100 else 0

/-- C1 evaluation helper: the exact percent change at the claimed boundary
input, as a total value (justified by `calculate_change_isSome`). -/
def changeVal (base pr : ℚ) : ℚ :=
  (calculate_change base pr).getD 0

/-- C1: the claim says percent change exactly +5.0 (base 1000, candidate
1050) is classified neutral.  Evaluating the code at that input:
`compare_benchmarks` computes +5.0 but classifies it "🚀 faster"
(improved), since `abs(5) < 5` fails and `5 > 5` fails, falling into the
`else` branch — while `summarise_regime` in the same repository classifies
the very same +5.0 as neutral.  A 5% latency increase reported as a
performance improvement contradicts the script's own legend
("🚀 = Performance improvement detected"). -/
theorem percent_change_boundary_misclassified :
    calculate_change 1000 1050 = some 5 ∧
    statusOf (changeVal 1000 1050) = Status.faster ∧
    statusOf (changeVal 1000 1050) ≠ Status.neutral ∧
    summariseFlag (summarisePct 1000 1050) = Status.neutral := by
  refine ⟨by norm_num [calculate_change, pyDiv], ?_, ?_, ?_⟩
  · norm_num [changeVal, calculate_change, pyDiv, statusOf, abs]
  · norm_num [changeVal, calculate_change, pyDiv, statusOf, abs]
    decide
  · norm_num [summariseFlag, summarisePct, abs]

/-- Python dict lookup built by `pr_lookup = {item['name']: item for item in
pr_data}` followed by `pr_lookup.get(name)`: the comprehension lets later
entries overwrite earlier ones, so the lookup yields the last record with
the given name. -/
def lookupByName (data : List MeasurementRecord) (n : String) : Option MeasurementRecord :=
  data.reverse.find? (fun item => item.name = n)

/-- Embeds `_has_rich_stats`: `any('p50' in item or 'p95' in item or
'std_dev' in item for item in data)`. -/
def hasRichStats (data : List MeasurementRecord) : Bool :=
  data.any fun item => item.p50.isSome || item.p95.isSome || item.std_dev.isSome

/-- One rendered statistics cell.  `_fmt(v)` returns `format_ns(v)` for a
numeric `v` and the placeholder `"-"` otherwise; we keep the numeric payload
instead of its digit string, since no claim depends on digit formatting. -/
inductive Cell where
  | dash
  | num (v : ℚ)
deriving Repr, DecidableEq

/-- Embeds `_fmt` applied to a field fetched with a `''` default: an absent
field renders as the dash placeholder. -/
def fmtCell : Option ℚ → Cell
  | none => .dash
  | some v => .num v

/-- The six statistics cells of a rich-mode row, in rendered order
(base p50, PR p50, base p95, PR p95, base σ, PR σ). -/
structure RichStats where
  base_p50 : Cell
  pr_p50 : Cell
  base_p95 : Cell
  pr_p95 : Cell
  base_sd : Cell
  pr_sd : Cell
deriving Repr, DecidableEq

/-- One row of the comparison table.  `pr_mean = none` renders as `"—"`,
`change = none` renders as `"N/A"`, and `stats` is populated exactly in
rich mode. -/
structure CompareRow where
  name : String
  base_mean : ℚ
  pr_mean : Option ℚ
  change : Option ℚ
  stats : Option RichStats
  status : Status
deriving Repr, DecidableEq

/-- Embeds one iteration of the `for base_item in base_data` loop of
`compare_benchmarks` (lines 82–123): a missing PR record yields the
"❌ missing" row with `N/A` change and all-dash statistics; otherwise the
percent change is computed and classified, and in rich mode the p50 cells
fall back to the record's `value` (`item.get('p50', item.get('value'))`)
while p95/σ fall back to the `''` placeholder. -/
def compareRow (rich : Bool) (pr_data : List MeasurementRecord)
    (base_item : MeasurementRecord) : CompareRow :=
  match lookupByName pr_data base_item.name with
  | none =>
      { name := base_item.name
        base_mean := base_item.value
        pr_mean := none
        change := none
        stats := if rich then some ⟨.dash, .dash, .dash, .dash, .dash, .dash⟩ else none
        status := .missing }
  | some pr_item =>
      let change := changeVal base_item.value pr_item.value
      { name := base_item.name
        base_mean := base_item.value
        pr_mean := some pr_item.value
        change := some change
        stats :=
          if rich then
            some { base_p50 := .num (base_item.p50.getD base_item.value)
                   pr_p50 := .num (pr_item.p50.getD pr_item.value)
                   base_p95 := fmtCell base_item.p95
                   pr_p95 := fmtCell pr_item.p95
                   base_sd := fmtCell base_item.std_dev
                   pr_sd := fmtCell pr_item.std_dev }
          else none
        status := statusOf change }

/-- The comparison report: whether the rich header is used, and the rows in
base order. -/
structure ComparisonReport where
  rich : Bool
  rows : List CompareRow
deriving Repr, DecidableEq

/-- Embeds the pure core of `compare_benchmarks` (file loading aside): rich
mode is decided from both sets, then exactly one row is appended per base
record. -/
def compare_benchmarks (base_data pr_data : List MeasurementRecord) : ComparisonReport :=
  let rich := hasRichStats base_data || hasRichStats pr_data
  { rich := rich, rows := base_data.map (compareRow rich pr_data) }

theorem compareRow_name (rich : Bool) (pr_data : List MeasurementRecord)
    (b : MeasurementRecord) : (compareRow rich pr_data b).name = b.name := by
  unfold compareRow
  cases lookupByName pr_data b.name <;> rfl

/-- C2: every base name appears exactly once among the report rows (order
preserved, no drops, no duplicates given unique base names), a base name
absent from the candidate set yields the missing row with an `N/A` change,
and no row carries a name outside the base set. -/
theorem report_rows_match_base (base_data pr_data : List MeasurementRecord)
    (h : (base_data.map (·.name)).Nodup) :
    ((compare_benchmarks base_data pr_data).rows.map (·.name) = base_data.map (·.name)) ∧
    (∀ n : String, ((compare_benchmarks base_data pr_data).rows.map (·.name)).count n =
      if n ∈ base_data.map (·.name) then 1 else 0) ∧
    (∀ row ∈ (compare_benchmarks base_data pr_data).rows,
      lookupByName pr_data row.name = none →
        row.status = Status.missing ∧ row.change = none) ∧
    (∀ row ∈ (compare_benchmarks base_data pr_data).rows,
      row.name ∈ base_data.map (·.name)) := by
  have hmap : (compare_benchmarks base_data pr_data).rows.map (·.name) =
      base_data.map (·.name) := by
    simp only [compare_benchmarks, List.map_map]
    exact List.map_congr_left fun b _ => compareRow_name _ _ b
  refine ⟨hmap, ?_, ?_, ?_⟩
  · intro n
    rw [hmap]
    by_cases hn : n ∈ base_data.map (·.name)
    · simp [hn, List.count_eq_one_of_mem h hn]
    · simp [hn, List.count_eq_zero.mpr hn]
  · intro row hrow hmiss
    obtain ⟨b, _, rfl⟩ := List.mem_map.mp hrow
    rw [compareRow_name] at hmiss
    simp [compareRow, hmiss]
  · intro row hrow
    obtain ⟨b, hb, rfl⟩ := List.mem_map.mp hrow
    rw [compareRow_name]
    exact List.mem_map.mpr ⟨b, hb, rfl⟩

/-- Witness for `report_rows_match_base` at a concrete pair of result
sets. -/
theorem report_rows_match_base_witness :
    ((compare_benchmarks
        [{ name := "a", unit := "ns", value := 10 },
         { name := "b", unit := "ns", value := 20 }]
        [{ name := "a", unit := "ns", value := 12 }]).rows.map (·.name) =
      ["a", "b"]) ∧
    (∀ row ∈ (compare_benchmarks
        [{ name := "a", unit := "ns", value := 10 },
         { name := "b", unit := "ns", value := 20 }]
        [{ name := "a", unit := "ns", value := 12 }]).rows,
      lookupByName [{ name := "a", unit := "ns", value := 12 }] row.name = none →
        row.status = Status.missing ∧ row.change = none) := by
  have hn : (([{ name := "a", unit := "ns", value := 10 },
      { name := "b", unit := "ns", value := 20 }] :
        List MeasurementRecord).map (·.name)).Nodup := by decide
  have h := report_rows_match_base
    [{ name := "a", unit := "ns", value := 10 },
     { name := "b", unit := "ns", value := 20 }]
    [{ name := "a", unit := "ns", value := 12 }] hn
  exact ⟨h.1, h.2.2.1⟩

/-- C6 counterexample input: the base record has `p95` populated (so rich
mode is on) but lacks `p50`; the candidate record lacks all three
statistics. -/
def c6Base : List MeasurementRecord :=
  [{ name := "a", unit := "ns", value := 100, p95 := some 5 }]

def c6Pr : List MeasurementRecord :=
  [{ name := "a", unit := "ns", value := 100 }]

/-- C6 counterexample: in rich mode a record lacking `p50` does not render
the dash placeholder in its p50 cell — `item.get('p50',
item.get('value'))` substitutes the record's scalar mean instead, so both
p50 cells show `100` while the absent p95/σ fields on the candidate side do
fall back to the dash. -/
theorem rich_p50_fallback_is_value_not_dash :
    (compare_benchmarks c6Base c6Pr).rich = true ∧
    ((compare_benchmarks c6Base c6Pr).rows.map (·.stats)) =
      [some { base_p50 := Cell.num 100, pr_p50 := Cell.num 100,
              base_p95 := Cell.num 5, pr_p95 := Cell.dash,
              base_sd := Cell.dash, pr_sd := Cell.dash }] ∧
    Cell.num (100 : ℚ) ≠ Cell.dash := by
  refine ⟨rfl, ?_, by decide⟩
  rfl

/-- C6 amended: whenever either set has a record with `p50`, `p95` or
`std_dev` populated, the report header switches to the rich columns and
every row carries the six statistics cells; an absent `p95` or `std_dev`
renders as the dash placeholder (and only absent fields do), but an absent
`p50` renders the record's scalar `value` instead of the dash. -/
theorem rich_stats_columns (base_data pr_data : List MeasurementRecord)
    (h : hasRichStats base_data = true ∨ hasRichStats pr_data = true) :
    (compare_benchmarks base_data pr_data).rich = true ∧
    (∀ row ∈ (compare_benchmarks base_data pr_data).rows, row.stats.isSome = true) ∧
    (∀ b ∈ base_data, ∀ p, lookupByName pr_data b.name = some p →
      (compareRow (compare_benchmarks base_data pr_data).rich pr_data b).stats =
        some { base_p50 := Cell.num (b.p50.getD b.value)
               pr_p50 := Cell.num (p.p50.getD p.value)
               base_p95 := fmtCell b.p95
               pr_p95 := fmtCell p.p95
               base_sd := fmtCell b.std_dev
               pr_sd := fmtCell p.std_dev }) ∧
    (∀ o : Option ℚ, fmtCell o = Cell.dash ↔ o = none) := by
  have hrich : (compare_benchmarks base_data pr_data).rich = true := by
    simp only [compare_benchmarks]
    rcases h with h | h <;> simp [h]
  refine ⟨hrich, ?_, ?_, ?_⟩
  · intro row hrow
    obtain ⟨b, _, rfl⟩ := List.mem_map.mp hrow
    have : (hasRichStats base_data || hasRichStats pr_data) = true := by
      simpa [compare_benchmarks] using hrich
    simp only [compare_benchmarks] at *
    unfold compareRow
    cases lookupByName pr_data b.name <;> simp [this]
  · intro b _ p hp
    rw [hrich]
    unfold compareRow
    rw [hp]
    simp
  · intro o
    cases o <;> simp [fmtCell]

/-- Witness for `rich_stats_columns` at the concrete counterexample pair. -/
theorem rich_stats_columns_witness :
    (compare_benchmarks c6Base c6Pr).rich = true ∧
    (∀ o : Option ℚ, fmtCell o = Cell.dash ↔ o = none) := by
  have h := rich_stats_columns c6Base c6Pr (Or.inl (by decide))
  exact ⟨h.1, h.2.2.2⟩

/-- C3: a zero base value never reaches the division (no
`ZeroDivisionError`) and the percent change is exactly 0, for any candidate
value — both in `calculate_change` and in the `summarise_regime` row
computation. -/
theorem zero_base_never_faults (pr : ℚ) :
    calculate_change 0 pr = some 0 ∧ summarisePct 0 pr = 0 := by
  constructor
  · simp [calculate_change]
  · simp [summarisePct]

/-! ## Subject Invoker: payload extraction and parsing -/

/-- The whitespace set stripped by Python's `str.strip()`. -/
def isPyWs (c : Char) : Bool :=
  c = ' ' || c = '\t' || c = '\n' || c = '\r' || c = '\x0b' || c = '\x0c'

/-- Embeds Python `line.strip()`. -/
def pyStrip (s : String) : String :=
  ⟨((s.data.dropWhile isPyWs).reverse.dropWhile isPyWs).reverse⟩

/-- Embeds Python `s.startswith(pre)` (character-list form, so that proofs
can evaluate it). -/
def pyStartsWith (s pre : String) : Bool :=
  pre.data.isPrefixOf s.data

/-- Embeds Python `s.endswith(suf)`. -/
def pyEndsWith (s suf : String) : Bool :=
  suf.data.reverse.isPrefixOf s.data.reverse

/-- The bracket test of `run_bench_cell` / `extract_json`:
`line.startswith("[") and line.endswith("]")` on the stripped line. -/
def isBracketedLine (l : String) : Bool :=
  pyStartsWith (pyStrip l) "[" && pyEndsWith (pyStrip l) "]"

/-- Embeds the scan loop of `run_bench_cell` (run_regime_matrix.py lines
172–180) and `extract_json` (run_buffer_pool.py lines 117–122): the first
line whose stripped form starts with `[` and ends with `]` is taken (the
stripped line is what gets parsed); all earlier lines are ignored. -/
def extractFirstBracketed : List String → Option String
  | [] => none
  | l :: ls =>
      if isBracketedLine l then some (pyStrip l)
      else extractFirstBracketed ls

/-- A JSON scalar occurring in a measurement payload. -/
inductive JVal where
  | jstr (s : String)
  | jnum (q : ℚ)
deriving Repr, DecidableEq

def skipWs (cs : List Char) : List Char := cs.dropWhile isPyWs

def strLitAux : List Char → List Char → Option (String × List Char)
  | [], _ => none
  | c :: rest, acc =>
      if c = '"' then some (String.mk acc.reverse, rest)
      else strLitAux rest (c :: acc)

/-- Parses a double-quoted string literal (payload names need no escape
sequences). -/
def parseStringLit : List Char → Option (String × List Char)
  | '"' :: rest => strLitAux rest []
  | _ => none

def digitsAux : List Char → List Char × List Char
  | [] => ([], [])
  | c :: rest =>
      if c.isDigit then
        let (ds, r) := digitsAux rest
        (c :: ds, r)
      else ([], c :: rest)

def natOfDigits (ds : List Char) : ℕ :=
  ds.foldl (fun acc c => 10 * acc + (c.toNat - 48)) 0

/-- Parses a decimal number with optional sign and fraction. -/
def parseNumber (cs : List Char) : Option (ℚ × List Char) :=
  let signed : Bool × List Char :=
    match cs with
    | '-' :: rest => (true, rest)
    | _ => (false, cs)
  match digitsAux signed.2 with
  | ([], _) => none
  | (ds, rest) =>
      let ip : ℚ := (natOfDigits ds : ℕ)
      match rest with
      | '.' :: rest2 =>
          match digitsAux rest2 with
          | ([], _) => none
          | (fs, rest3) =>
              let fv : ℚ := (natOfDigits fs : ℕ) / ((10 : ℚ) ^ fs.length)
              some (if signed.1 then -(ip + fv) else ip + fv, rest3)
      | _ => some (if signed.1 then -ip else ip, rest)

def parseJVal (cs : List Char) : Option (JVal × List Char) :=
  match cs with
  | '"' :: _ => (parseStringLit cs).map (fun sr => (.jstr sr.1, sr.2))
  | _ => (parseNumber cs).map (fun qr => (.jnum qr.1, qr.2))

/-- Parses the members of a JSON object after its opening brace, fuelled to
guarantee termination. -/
def parseMembersAux : ℕ → List Char → List (String × JVal) →
    Option (List (String × JVal) × List Char)
  | 0, _, _ => none
  | fuel + 1, cs, acc =>
      match parseStringLit (skipWs cs) with
      | none => none
      | some (key, r1) =>
          match skipWs r1 with
          | ':' :: r2 =>
              match parseJVal (skipWs r2) with
              | none => none
              | some (v, r3) =>
                  match skipWs r3 with
                  | ',' :: r4 => parseMembersAux fuel r4 ((key, v) :: acc)
                  | '\x7d' :: r4 => some (((key, v) :: acc).reverse, r4)
                  | _ => none
          | _ => none

def parseObject (fuel : ℕ) (cs : List Char) :
    Option (List (String × JVal) × List Char) :=
  match skipWs cs with
  | '\x7b' :: r1 =>
      match skipWs r1 with
      | '\x7d' :: r2 => some ([], r2)
      | _ => parseMembersAux fuel r1 []
  | _ => none

def qOf : JVal → Option ℚ
  | .jnum q => some q
  | _ => none

def sOf : JVal → Option String
  | .jstr s => some s
  | _ => none

/-- Key lookup in a parsed JSON object (Python dicts let a duplicate key's
last occurrence win). -/
def lookupKey (ms : List (String × JVal)) (k : String) : Option JVal :=
  (ms.reverse.find? (fun m => m.1 = k)).map (·.2)

/-- Builds a `MeasurementRecord` from a parsed object: `name`, `unit` and
`value` are required (the consuming code indexes them unconditionally),
the three statistics fields are optional. -/
def recordOfMembers (ms : List (String × JVal)) : Option MeasurementRecord := do
  let name ← (lookupKey ms "name").bind sOf
  let unitStr ← (lookupKey ms "unit").bind sOf
  let value ← (lookupKey ms "value").bind qOf
  pure { name := name, unit := unitStr, value := value
         p50 := (lookupKey ms "p50").bind qOf
         p95 := (lookupKey ms "p95").bind qOf
         std_dev := (lookupKey ms "std_dev").bind qOf }

def parseRecordsAux : ℕ → List Char → List MeasurementRecord →
    Option (List MeasurementRecord × List Char)
  | 0, _, _ => none
  | fuel + 1, cs, acc =>
      match parseObject fuel (skipWs cs) with
      | none => none
      | some (ms, r1) =>
          match recordOfMembers ms with
          | none => none
          | some record =>
              match skipWs r1 with
              | ',' :: r2 => parseRecordsAux fuel r2 (record :: acc)
              | ']' :: r2 => some ((record :: acc).reverse, r2)
              | _ => none

/-- Modelled from the spec: Python's `json.loads` applied to the payload
line.  `json.loads` is standard-library code not under `src/`; the spec
(§6) fixes the payload grammar as a single-line array literal of
`{"name": string, "unit": string, "value": number, [p50, p95, std_dev]}`
objects, and this parser accepts exactly that grammar (whitespace-tolerant,
strings without escape sequences, decimal numbers with optional sign and
fraction). -/
def json_loads_records (s : String) : Option (List MeasurementRecord) :=
  match skipWs s.data with
  | '[' :: r1 =>
      match skipWs r1 with
      | ']' :: r2 => if (skipWs r2).isEmpty then some [] else none
      | _ =>
          match parseRecordsAux (s.length + 1) r1 [] with
          | some (records, rest) =>
              if (skipWs rest).isEmpty then some records else none
          | none => none
  | _ => none

/-- The fatal failure modes of the Subject Invoker
(`SubjectExecutionError` / `MissingPayloadError` / `MalformedPayloadError`
in the spec's taxonomy; all three surface as raised exceptions in
`run_bench_cell`). -/
inductive BenchError where
  | subjectFailed (cmd : String) (errStream : String)
  | noJson
  | badJson (line : String)
deriving Repr, DecidableEq

/-- Outcome of one subject child process: exit status, captured standard
output split into lines, captured error stream. -/
structure SubprocessResult where
  exitCode : Nat
  stdout : List String
  errStream : String
deriving Repr, DecidableEq

/-- Embeds `run_bench_cell` (run_regime_matrix.py lines 154–180) from the
point the child process has returned: a non-zero exit raises carrying the
command and error stream (the `CalledProcessError` branch prints both and
re-raises); otherwise the first bracketed stdout line is parsed; no
bracketed line, or an unparseable one, is fatal. -/
def run_bench_cell (cmd : String) (res : SubprocessResult) :
    Except BenchError (List MeasurementRecord) :=
  if res.exitCode ≠ 0 then .error (.subjectFailed cmd res.errStream)
  else
    match extractFirstBracketed res.stdout with
    | none => .error .noJson
    | some line =>
        match json_loads_records line with
        | some records => .ok records
        | none => .error (.badJson line)

/-- The C4 payload line: `[{"name":"x","unit":"ns","value":42}]`. -/
def c4Payload : String :=
  "[\x7b\"name\":\"x\",\"unit\":\"ns\",\"value\":42\x7d]"

/-- C4: for a subject output stream of three non-bracketed log lines
followed by the payload line `[{"name":"x","unit":"ns","value":42}]`, the
invoker scans line by line, ignores the log lines, takes the first
bracketed line, and returns exactly the one record it encodes. -/
theorem invoker_takes_first_bracketed_line (l1 l2 l3 cmd err : String)
    (h1 : isBracketedLine l1 = false)
    (h2 : isBracketedLine l2 = false)
    (h3 : isBracketedLine l3 = false) :
    extractFirstBracketed [l1, l2, l3, c4Payload] = some c4Payload ∧
    run_bench_cell cmd ⟨0, [l1, l2, l3, c4Payload], err⟩ =
      .ok [{ name := "x", unit := "ns", value := 42 }] := by
  have hex : extractFirstBracketed [l1, l2, l3, c4Payload] = some c4Payload := by
    simp [extractFirstBracketed, h1, h2, h3]
    decide
  refine ⟨hex, ?_⟩
  show (if (0 : Nat) ≠ 0 then _ else _) = _
  rw [if_neg (by decide)]
  show (match extractFirstBracketed [l1, l2, l3, c4Payload] with
    | none => Except.error BenchError.noJson
    | some line =>
        match json_loads_records line with
        | some records => Except.ok records
        | none => Except.error (BenchError.badJson line)) = _
  rw [hex]
  rfl

/-- Witness for `invoker_takes_first_bracketed_line` with concrete log
lines. -/
theorem invoker_takes_first_bracketed_line_witness :
    extractFirstBracketed
      ["Compiling simpledb v0.1", "Finished bench target", "Running io_patterns",
        c4Payload] = some c4Payload ∧
    run_bench_cell "cargo bench"
      ⟨0, ["Compiling simpledb v0.1", "Finished bench target", "Running io_patterns",
        c4Payload], ""⟩ = .ok [{ name := "x", unit := "ns", value := 42 }] :=
  invoker_takes_first_bracketed_line
    "Compiling simpledb v0.1" "Finished bench target" "Running io_patterns"
    "cargo bench" "" (by decide) (by decide) (by decide)

/-! ## Grid Orchestrator: the regime-matrix sweep -/

/-- The fixed regime dimension of `run_regime_matrix.py`. -/
def REGIMES : List String := ["hot", "pressure", "thrash"]

/-- The I/O-mode dimension: each regime runs a buffered and a direct cell. -/
def MODES : List String := ["buffered", "direct"]

/-- Outcome of one `compare_benchmarks.py` child process, as observed by
`run_compare`: its exit status, whether the output markdown file exists,
and that file's text. -/
structure CompareOutcome where
  returncode : Int
  fileExists : Bool
  fileText : String
deriving Repr, DecidableEq

/-- Embeds `run_compare` (run_regime_matrix.py lines 183–192): the
subprocess is run WITHOUT `check=True`; a non-zero exit only prints a
warning (the Bool component) and the function returns normally with the
output file's text (empty when the file does not exist) and the exact
command string — it can never raise. -/
def run_compare (out : CompareOutcome) (cmdStr : String) :
    (String × String) × Bool :=
  (((if out.fileExists then out.fileText else ""), cmdStr), out.returncode != 0)

/-- The exact compare command recorded in the manifest:
`python3 scripts/compare_benchmarks.py <base> <pr> <out> <label>`. -/
def compare_cmd_str (regime : String) : String :=
  "python3 scripts/compare_benchmarks.py buffered_" ++ regime ++
    ".json direct_" ++ regime ++ ".json compare_" ++ regime ++ ".md " ++ regime

/-- The observable state of a sweep's output directory plus the orchestrator
trace: raw artifact and report files written (in order), the commands map
of the on-disk `run_manifest.json` (regime, buffered command, direct
command, compare command — the manifest is rewritten at line 356, once per
regime), the cells completed so far, a checkpoint per completed cell
recording (cells completed, regimes present in the on-disk manifest's
commands map at that instant), and the regimes whose comparison step
printed a warning. -/
structure MainState where
  artifacts : List String := []
  manifest : List (String × String × String × String) := []
  completed : List String := []
  checkpoints : List (List String × List String) := []
  warnings : List String := []
deriving Repr, DecidableEq

/-- The initial on-disk state: `main` writes the manifest with an empty
commands map (line 328) before the first cell runs. -/
def initState : MainState := {}

/-- Embeds one iteration of the `for regime in REGIMES` loop of `main`
(run_regime_matrix.py lines 333–362): buffered cell, buffered artifact;
direct cell, direct artifact; comparison (whose failure is only a
warning — the comparator child writes `compare_<regime>.md` itself, so
that file is on disk only when the comparison outcome says it exists, and
`prepend_compare_metadata` returns without writing when it is absent);
then the manifest commands entry for this regime and the manifest
rewrite.  A cell failure propagates immediately, leaving the state as it
was at the failure point. -/
def run_regime (cells : String → String → SubprocessResult)
    (cmdOf : String → String → String) (compRes : String → CompareOutcome)
    (regime : String) (st : MainState) : MainState × Option BenchError :=
  match run_bench_cell (cmdOf regime "buffered") (cells regime "buffered") with
  | .error e => (st, some e)
  | .ok _ =>
      let st1 : MainState :=
        { st with
          artifacts := st.artifacts ++ ["buffered_" ++ regime ++ ".json"]
          completed := st.completed ++ ["buffered_" ++ regime]
          checkpoints := st.checkpoints ++
            [(st.completed ++ ["buffered_" ++ regime], st.manifest.map (·.1))] }
      match run_bench_cell (cmdOf regime "direct") (cells regime "direct") with
      | .error e => (st1, some e)
      | .ok _ =>
          let st2 : MainState :=
            { st1 with
              artifacts := st1.artifacts ++ ["direct_" ++ regime ++ ".json"]
              completed := st1.completed ++ ["direct_" ++ regime]
              checkpoints := st1.checkpoints ++
                [(st1.completed ++ ["direct_" ++ regime], st1.manifest.map (·.1))] }
          let cmp := run_compare (compRes regime) (compare_cmd_str regime)
          ({ st2 with
              artifacts := st2.artifacts ++
                (if (compRes regime).fileExists then ["compare_" ++ regime ++ ".md"]
                 else [])
              manifest := st2.manifest ++
                [(regime, cmdOf regime "buffered", cmdOf regime "direct",
                  compare_cmd_str regime)]
              warnings := st2.warnings ++ (if cmp.2 then [regime] else []) },
            none)

/-- The sweep loop: once a cell has failed, no further cell runs (the
exception propagates out of `main`). -/
def run_matrix_aux (cells : String → String → SubprocessResult)
    (cmdOf : String → String → String) (compRes : String → CompareOutcome) :
    List String → MainState × Option BenchError → MainState × Option BenchError
  | [], acc => acc
  | regime :: rest, (st, none) =>
      run_matrix_aux cells cmdOf compRes rest (run_regime cells cmdOf compRes regime st)
  | _ :: _, (st, some e) => (st, some e)

/-- Embeds `main` of run_regime_matrix.py over the three regimes. -/
def run_matrix (cells : String → String → SubprocessResult)
    (cmdOf : String → String → String) (compRes : String → CompareOutcome) :
    MainState × Option BenchError :=
  run_matrix_aux cells cmdOf compRes REGIMES (initState, none)

/-- `Except` success test. -/
def exceptOk {ε α : Type} : Except ε α → Bool
  | .ok _ => true
  | .error _ => false

theorem exceptOk_iff {ε α : Type} (r : Except ε α) :
    exceptOk r = true ↔ ∃ v, r = .ok v := by
  cases r <;> simp [exceptOk]

theorem run_regime_snd_none_iff (cells : String → String → SubprocessResult)
    (cmdOf : String → String → String) (compRes : String → CompareOutcome)
    (regime : String) (st : MainState) :
    (run_regime cells cmdOf compRes regime st).2 = none ↔
      (exceptOk (run_bench_cell (cmdOf regime "buffered") (cells regime "buffered")) = true ∧
       exceptOk (run_bench_cell (cmdOf regime "direct") (cells regime "direct")) = true) := by
  unfold run_regime
  cases run_bench_cell (cmdOf regime "buffered") (cells regime "buffered") <;>
    cases run_bench_cell (cmdOf regime "direct") (cells regime "direct") <;>
    simp [exceptOk]

theorem run_matrix_aux_stopped (cells : String → String → SubprocessResult)
    (cmdOf : String → String → String) (compRes : String → CompareOutcome)
    (rs : List String) (st : MainState) (e : BenchError) :
    run_matrix_aux cells cmdOf compRes rs (st, some e) = (st, some e) := by
  cases rs <;> rfl

theorem run_regime_artifacts_mono (cells : String → String → SubprocessResult)
    (cmdOf : String → String → String) (compRes : String → CompareOutcome)
    (regime : String) (st : MainState) (a : String) (ha : a ∈ st.artifacts) :
    a ∈ (run_regime cells cmdOf compRes regime st).1.artifacts := by
  unfold run_regime
  cases run_bench_cell (cmdOf regime "buffered") (cells regime "buffered") <;>
    cases run_bench_cell (cmdOf regime "direct") (cells regime "direct") <;>
    simp [ha]

theorem run_matrix_aux_none_iff (cells : String → String → SubprocessResult)
    (cmdOf : String → String → String) (compRes : String → CompareOutcome) :
    ∀ (rs : List String) (st : MainState),
      (run_matrix_aux cells cmdOf compRes rs (st, none)).2 = none ↔
        ∀ r ∈ rs,
          exceptOk (run_bench_cell (cmdOf r "buffered") (cells r "buffered")) = true ∧
          exceptOk (run_bench_cell (cmdOf r "direct") (cells r "direct")) = true := by
  intro rs
  induction rs with
  | nil => intro st; simp [run_matrix_aux]
  | cons r rest ih =>
      intro st
      show (run_matrix_aux cells cmdOf compRes rest
        (run_regime cells cmdOf compRes r st)).2 = none ↔ _
      rcases hr : run_regime cells cmdOf compRes r st with ⟨st', e⟩
      cases e with
      | none =>
          have hcell : exceptOk (run_bench_cell (cmdOf r "buffered") (cells r "buffered")) = true ∧
              exceptOk (run_bench_cell (cmdOf r "direct") (cells r "direct")) = true := by
            have := (run_regime_snd_none_iff cells cmdOf compRes r st).mp (by rw [hr])
            exact this
          simp [ih st', hcell]
      | some e =>
          rw [run_matrix_aux_stopped]
          have hcell : ¬ (exceptOk (run_bench_cell (cmdOf r "buffered") (cells r "buffered")) = true ∧
              exceptOk (run_bench_cell (cmdOf r "direct") (cells r "direct")) = true) := by
            intro hc
            have := (run_regime_snd_none_iff cells cmdOf compRes r st).mpr hc
            rw [hr] at this
            simp at this
          simp only [List.mem_cons]
          constructor
          · intro h; simp at h
          · intro h
            exact absurd (h r (Or.inl rfl)) hcell

/-- C5: the Subject Invoker fails in exactly three cases — non-zero subject
exit (the error carries the command and the captured error stream), no
bracketed line in its output, or an unparseable bracketed line — it
succeeds exactly when none of them occurs; any cell failure aborts the
whole sweep (the sweep succeeds iff every cell of every regime succeeds,
and after a failure the remaining regimes never run and the disk state is
returned exactly as it was at the failure), while artifacts already
written are never removed. -/
theorem invoker_failure_modes_and_fatality
    (cmd : String) (res : SubprocessResult)
    (cells : String → String → SubprocessResult)
    (cmdOf : String → String → String) (compRes : String → CompareOutcome) :
    ((exceptOk (run_bench_cell cmd res) = true ↔
       (res.exitCode = 0 ∧ ∃ line records,
         extractFirstBracketed res.stdout = some line ∧
         json_loads_records line = some records))) ∧
    (res.exitCode ≠ 0 →
      run_bench_cell cmd res = .error (.subjectFailed cmd res.errStream)) ∧
    (res.exitCode = 0 → extractFirstBracketed res.stdout = none →
      run_bench_cell cmd res = .error .noJson) ∧
    (∀ line, res.exitCode = 0 → extractFirstBracketed res.stdout = some line →
      json_loads_records line = none →
      run_bench_cell cmd res = .error (.badJson line)) ∧
    ((run_matrix cells cmdOf compRes).2 = none ↔
      ∀ r ∈ REGIMES,
        exceptOk (run_bench_cell (cmdOf r "buffered") (cells r "buffered")) = true ∧
        exceptOk (run_bench_cell (cmdOf r "direct") (cells r "direct")) = true) ∧
    (∀ (rs : List String) (st : MainState) (e : BenchError),
      run_matrix_aux cells cmdOf compRes rs (st, some e) = (st, some e)) ∧
    (∀ (regime : String) (st : MainState) (a : String), a ∈ st.artifacts →
      a ∈ (run_regime cells cmdOf compRes regime st).1.artifacts) := by
  refine ⟨?_, ?_, ?_, ?_, ?_, ?_, ?_⟩
  · unfold run_bench_cell
    by_cases hx : res.exitCode = 0
    · simp only [hx, ne_eq, not_true_eq_false, if_neg]
      cases hext : extractFirstBracketed res.stdout with
      | none => simp [exceptOk, hx]
      | some line =>
          cases hjson : json_loads_records line with
          | none => simp [exceptOk, hx, hjson]
          | some records => simp [exceptOk, hx, hjson]
    · simp [hx, exceptOk]
  · intro hx
    simp [run_bench_cell, hx]
  · intro hx hext
    simp [run_bench_cell, hx, hext]
  · intro line hx hext hjson
    simp [run_bench_cell, hx, hext, hjson]
  · exact run_matrix_aux_none_iff cells cmdOf compRes REGIMES initState
  · exact run_matrix_aux_stopped cells cmdOf compRes
  · exact run_regime_artifacts_mono cells cmdOf compRes

/-- Witness for `invoker_failure_modes_and_fatality`: a failing subject at
concrete inputs, with the error carrying the command and error stream. -/
theorem invoker_failure_modes_and_fatality_witness :
    run_bench_cell "cargo bench" ⟨101, [], "linker failed"⟩ =
      .error (.subjectFailed "cargo bench" "linker failed") ∧
    run_bench_cell "cargo bench" ⟨0, ["no payload here"], ""⟩ =
      .error .noJson := by
  constructor
  · exact (invoker_failure_modes_and_fatality "cargo bench" ⟨101, [], "linker failed"⟩
      (fun _ _ => ⟨0, [], ""⟩) (fun _ _ => "") (fun _ => ⟨0, true, ""⟩)).2.1
      (by decide)
  · exact (invoker_failure_modes_and_fatality "cargo bench" ⟨0, ["no payload here"], ""⟩
      (fun _ _ => ⟨0, [], ""⟩) (fun _ _ => "") (fun _ => ⟨0, true, ""⟩)).2.2.1
      rfl (by decide)

theorem run_regime_ok_state (cells : String → String → SubprocessResult)
    (cmdOf : String → String → String) (compRes : String → CompareOutcome)
    (regime : String) (st : MainState) (v1 v2 : List MeasurementRecord)
    (h1 : run_bench_cell (cmdOf regime "buffered") (cells regime "buffered") = .ok v1)
    (h2 : run_bench_cell (cmdOf regime "direct") (cells regime "direct") = .ok v2) :
    run_regime cells cmdOf compRes regime st =
      ({ artifacts := st.artifacts ++ ["buffered_" ++ regime ++ ".json",
            "direct_" ++ regime ++ ".json"] ++
            (if (compRes regime).fileExists then ["compare_" ++ regime ++ ".md"]
             else [])
         manifest := st.manifest ++ [(regime, cmdOf regime "buffered",
            cmdOf regime "direct", compare_cmd_str regime)]
         completed := st.completed ++ ["buffered_" ++ regime, "direct_" ++ regime]
         checkpoints := st.checkpoints ++
            [(st.completed ++ ["buffered_" ++ regime], st.manifest.map (·.1)),
             (st.completed ++ ["buffered_" ++ regime, "direct_" ++ regime],
               st.manifest.map (·.1))]
         warnings := st.warnings ++
            (if (compRes regime).returncode != 0 then [regime] else []) }, none) := by
  unfold run_regime
  rw [h1, h2]
  simp [run_compare, List.append_assoc]

/-- Concrete sweep inputs: every cell succeeds with the C4 payload. -/
def cxCells : String → String → SubprocessResult := fun _ _ => ⟨0, [c4Payload], ""⟩

def cxCmdOf : String → String → String :=
  fun regime mode => "cargo bench " ++ mode ++ " " ++ regime

def cxCompOk : String → CompareOutcome := fun _ => ⟨0, true, "report"⟩

/-- Comparison child process failing with exit status 1 and no output
file. -/
def cxCompBad : String → CompareOutcome := fun _ => ⟨1, false, ""⟩

/-- C9 counterexample: in a fully successful sweep, the checkpoint taken
right after the very first cell (`buffered_hot`) completes shows the
on-disk manifest with an EMPTY commands map — the command of the completed
cell is not there, because `main` rewrites the manifest only after a whole
regime (both cells and the comparison) finishes; a crash between the two
cells of a regime therefore leaves a manifest missing the completed cell's
command. -/
theorem manifest_lags_first_cell :
    (run_matrix cxCells cxCmdOf cxCompOk).1.checkpoints.head? =
      some (["buffered_hot"], []) ∧
    (run_matrix cxCells cxCmdOf cxCompOk).2 = none :=
  ⟨rfl, rfl⟩

/-- C9 amended: the RunManifest is rewritten to durable storage once per
regime, not once per cell: on any successful sweep the six per-cell
checkpoints show the on-disk manifest holding exactly the commands of the
fully completed regimes (empty during `hot`, `["hot"]` during `pressure`,
`["hot", "pressure"]` during `thrash`), and only after the whole sweep does
it list all three regimes' command triples. -/
theorem manifest_written_per_regime (cells : String → String → SubprocessResult)
    (cmdOf : String → String → String) (compRes : String → CompareOutcome)
    (st : MainState) (h : run_matrix cells cmdOf compRes = (st, none)) :
    st.checkpoints = [
      (["buffered_hot"], []),
      (["buffered_hot", "direct_hot"], []),
      (["buffered_hot", "direct_hot", "buffered_pressure"], ["hot"]),
      (["buffered_hot", "direct_hot", "buffered_pressure", "direct_pressure"],
        ["hot"]),
      (["buffered_hot", "direct_hot", "buffered_pressure", "direct_pressure",
         "buffered_thrash"], ["hot", "pressure"]),
      (["buffered_hot", "direct_hot", "buffered_pressure", "direct_pressure",
         "buffered_thrash", "direct_thrash"], ["hot", "pressure"])] ∧
    st.manifest.map (·.1) = REGIMES := by
  have hall := (run_matrix_aux_none_iff cells cmdOf compRes REGIMES initState).mp
    (by rw [show run_matrix_aux cells cmdOf compRes REGIMES (initState, none) =
          run_matrix cells cmdOf compRes from rfl, h])
  have hh := hall "hot" (by simp [REGIMES])
  have hp := hall "pressure" (by simp [REGIMES])
  have ht := hall "thrash" (by simp [REGIMES])
  obtain ⟨vb1, hb1⟩ := (exceptOk_iff _).mp hh.1
  obtain ⟨vd1, hd1⟩ := (exceptOk_iff _).mp hh.2
  obtain ⟨vb2, hb2⟩ := (exceptOk_iff _).mp hp.1
  obtain ⟨vd2, hd2⟩ := (exceptOk_iff _).mp hp.2
  obtain ⟨vb3, hb3⟩ := (exceptOk_iff _).mp ht.1
  obtain ⟨vd3, hd3⟩ := (exceptOk_iff _).mp ht.2
  have hst : st = (run_matrix cells cmdOf compRes).1 := by rw [h]
  subst hst
  rw [show run_matrix cells cmdOf compRes =
      run_matrix_aux cells cmdOf compRes ["hot", "pressure", "thrash"]
        (initState, none) from rfl]
  rw [show run_matrix_aux cells cmdOf compRes ["hot", "pressure", "thrash"]
        (initState, none) =
      run_matrix_aux cells cmdOf compRes ["pressure", "thrash"]
        (run_regime cells cmdOf compRes "hot" initState) from rfl]
  rw [run_regime_ok_state cells cmdOf compRes "hot" initState vb1 vd1 hb1 hd1]
  rw [show ∀ s, run_matrix_aux cells cmdOf compRes ["pressure", "thrash"] (s, none) =
      run_matrix_aux cells cmdOf compRes ["thrash"]
        (run_regime cells cmdOf compRes "pressure" s) from fun s => rfl]
  rw [run_regime_ok_state cells cmdOf compRes "pressure" _ vb2 vd2 hb2 hd2]
  rw [show ∀ s, run_matrix_aux cells cmdOf compRes ["thrash"] (s, none) =
      run_matrix_aux cells cmdOf compRes []
        (run_regime cells cmdOf compRes "thrash" s) from fun s => rfl]
  rw [run_regime_ok_state cells cmdOf compRes "thrash" _ vb3 vd3 hb3 hd3]
  simp [run_matrix_aux, initState, REGIMES]

/-- Witness for `manifest_written_per_regime` at the concrete all-success
sweep. -/
theorem manifest_written_per_regime_witness :
    (run_matrix cxCells cxCmdOf cxCompOk).1.checkpoints.length = 6 ∧
    (run_matrix cxCells cxCmdOf cxCompOk).1.manifest.map (·.1) = REGIMES := by
  have h := manifest_written_per_regime cxCells cxCmdOf cxCompOk
    (run_matrix cxCells cxCmdOf cxCompOk).1 (by constructor)
  constructor
  · rw [h.1]; rfl
  · exact h.2

/-- C7 counterexample: a sweep in which the comparison child process exits
non-zero for every regime (and writes no output file) still runs all six
cells to completion and ends without error — the orchestrator records a
warning per failed comparison and continues, so the sweep DOES continue
past a failed comparison. -/
theorem sweep_continues_past_failed_compare :
    (run_matrix cxCells cxCmdOf cxCompBad).2 = none ∧
    (run_matrix cxCells cxCmdOf cxCompBad).1.completed =
      ["buffered_hot", "direct_hot", "buffered_pressure", "direct_pressure",
       "buffered_thrash", "direct_thrash"] ∧
    (run_matrix cxCells cxCmdOf cxCompBad).1.warnings = REGIMES :=
  ⟨rfl, rfl, rfl⟩

/-- The control-flow trace of a sweep state — the manifest commands, the
cells completed and the per-cell checkpoints; NOT the on-disk files (the
per-regime report file exists only when the comparator wrote it) and not
the warning log. -/
def coreOf (st : MainState) :
    List (String × String × String × String) ×
      List String × List (List String × List String) :=
  (st.manifest, st.completed, st.checkpoints)

theorem run_regime_core_congr (cells : String → String → SubprocessResult)
    (cmdOf : String → String → String) (compRes compRes' : String → CompareOutcome)
    (regime : String) (st st' : MainState) (h : coreOf st = coreOf st') :
    coreOf (run_regime cells cmdOf compRes regime st).1 =
      coreOf (run_regime cells cmdOf compRes' regime st').1 ∧
    (run_regime cells cmdOf compRes regime st).2 =
      (run_regime cells cmdOf compRes' regime st').2 := by
  simp only [coreOf, Prod.mk.injEq] at h
  obtain ⟨hm, hc, hk⟩ := h
  unfold run_regime
  cases run_bench_cell (cmdOf regime "buffered") (cells regime "buffered") <;>
    cases run_bench_cell (cmdOf regime "direct") (cells regime "direct") <;>
    simp [coreOf, hm, hc, hk]

theorem run_matrix_aux_core_congr (cells : String → String → SubprocessResult)
    (cmdOf : String → String → String) (compRes compRes' : String → CompareOutcome) :
    ∀ (rs : List String) (st st' : MainState), coreOf st = coreOf st' →
      coreOf (run_matrix_aux cells cmdOf compRes rs (st, none)).1 =
        coreOf (run_matrix_aux cells cmdOf compRes' rs (st', none)).1 ∧
      (run_matrix_aux cells cmdOf compRes rs (st, none)).2 =
        (run_matrix_aux cells cmdOf compRes' rs (st', none)).2 := by
  intro rs
  induction rs with
  | nil => intro st st' h; exact ⟨h, rfl⟩
  | cons r rest ih =>
      intro st st' h
      have hr := run_regime_core_congr cells cmdOf compRes compRes' r st st' h
      rcases hp : run_regime cells cmdOf compRes r st with ⟨s1, e1⟩
      rcases hp' : run_regime cells cmdOf compRes' r st' with ⟨s1', e1'⟩
      rw [hp, hp'] at hr
      have hcore : coreOf s1 = coreOf s1' := hr.1
      have he : e1 = e1' := hr.2
      subst he
      show coreOf (run_matrix_aux cells cmdOf compRes (r :: rest) (st, none)).1 = _ ∧ _
      rw [show run_matrix_aux cells cmdOf compRes (r :: rest) (st, none) =
            run_matrix_aux cells cmdOf compRes rest
              (run_regime cells cmdOf compRes r st) from rfl,
          show run_matrix_aux cells cmdOf compRes' (r :: rest) (st', none) =
            run_matrix_aux cells cmdOf compRes' rest
              (run_regime cells cmdOf compRes' r st') from rfl,
          hp, hp']
      cases e1 with
      | none => exact ih s1 s1' hcore
      | some e =>
          rw [run_matrix_aux_stopped, run_matrix_aux_stopped]
          exact ⟨hcore, rfl⟩

/-- C7 amended: a failed comparison step is absorbed, not propagated —
`run_compare` runs the comparator without `check=True`, flags a warning
exactly when the comparator exits non-zero, substitutes empty text when the
output file is missing, and returns normally, so the sweep always continues
past a failed comparison: its outcome (error or completion), completed
cells, checkpoints and manifest are independent of the comparison
outcomes.  (What does depend on them is the on-disk `compare_<regime>.md`
report, which exists only when the comparator wrote it, and the warning
log.) -/
theorem compare_failure_only_warns (cells : String → String → SubprocessResult)
    (cmdOf : String → String → String) (compRes compRes' : String → CompareOutcome) :
    ((run_matrix cells cmdOf compRes).2 = (run_matrix cells cmdOf compRes').2) ∧
    (coreOf (run_matrix cells cmdOf compRes).1 =
      coreOf (run_matrix cells cmdOf compRes').1) ∧
    (∀ out cmdStr, (run_compare out cmdStr).2 = (out.returncode != 0) ∧
      (run_compare out cmdStr).1 =
        ((if out.fileExists then out.fileText else ""), cmdStr)) := by
  have h := run_matrix_aux_core_congr cells cmdOf compRes compRes' REGIMES
    initState initState rfl
  exact ⟨h.2, h.1, fun out cmdStr => ⟨rfl, rfl⟩⟩

/-! ## Per-regime and aggregate summaries (run_regime_matrix.py) -/

/-- `direct_map.get(name, b)`: the direct value for a name, defaulting to
the buffered value when the name is absent (the dict is keyed by name,
last occurrence winning). -/
def lookupValue (data : List MeasurementRecord) (n : String) : Option ℚ :=
  (lookupByName data n).map (·.value)

/-- The direct-side value used by `summarise_regime` for one buffered row:
`d = direct_map.get(name, b)`. -/
def summariseD (direct : List MeasurementRecord) (item : MeasurementRecord) : ℚ :=
  (lookupValue direct item.name).getD item.value

/-- One row's percent change in the aggregate summary (main, lines
371–376): `(direct_map.get(r["name"], r["value"]) - r["value"]) /
r["value"] * 100` with NO zero guard — a zero buffered value raises
`ZeroDivisionError`. -/
def agg_row_pct (direct : List MeasurementRecord) (r : MeasurementRecord) : Option ℚ :=
  (pyDiv ((lookupValue direct r.name).getD r.value - r.value) r.value).map (· * 100)

/-- All rows' aggregate percent changes; `none` models the
`ZeroDivisionError` aborting the generator expression. -/
def aggregate_pcts (direct : List MeasurementRecord) :
    List MeasurementRecord → Option (List ℚ)
  | [] => some []
  | r :: rest =>
      match agg_row_pct direct r with
      | none => none
      | some p => (aggregate_pcts direct rest).map (p :: ·)

/-- The aggregate summary counts per regime: `faster` counts rows with
percent change `< -5`, `slower` counts `> 5`, and `neutral = len(buffered)
- faster - slower`. -/
def aggregate_counts (buffered direct : List MeasurementRecord) :
    Option (ℕ × ℕ × ℕ) :=
  (aggregate_pcts direct buffered).map fun ps =>
    (ps.countP (fun p => decide (p < -5)),
     buffered.length - ps.countP (fun p => decide (p < -5)) -
       ps.countP (fun p => decide (p > 5)),
     ps.countP (fun p => decide (p > 5)))

/-- C10 counterexample input: one buffered benchmark with value 0, absent
from the direct set. -/
def c10Buffered : List MeasurementRecord := [{ name := "a", unit := "ns", value := 0 }]

/-- C10 counterexample: the benchmark name `a` is present in the buffered
set and absent from the direct set, yet the aggregate summary does not
count it as neutral — the unguarded division by the buffered value 0
raises `ZeroDivisionError` and the aggregate summary crashes. -/
theorem aggregate_counts_zero_base_faults :
    lookupValue [] "a" = none ∧
    aggregate_counts c10Buffered [] = none := by
  constructor
  · rfl
  · rfl

/-- C10 amended: a benchmark name present in the buffered set but absent
from the direct set is treated as if its direct value equalled its
buffered value.  In the per-regime stderr summary this always yields a 0%
change and the neutral (empty) flag, even for a zero buffered value; in
the final aggregate summary it yields a 0% row (counted as neutral, being
neither `< -5` nor `> 5`) provided the buffered value is nonzero, while a
zero buffered value makes the aggregate computation raise a division
fault instead of counting the row at all. -/
theorem missing_direct_counted_neutral (direct : List MeasurementRecord)
    (item : MeasurementRecord) (h : lookupValue direct item.name = none) :
    summarisePct item.value (summariseD direct item) = 0 ∧
    summariseFlag (summarisePct item.value (summariseD direct item)) =
      Status.neutral ∧
    (item.value ≠ 0 → agg_row_pct direct item = some 0) ∧
    (item.value = 0 → agg_row_pct direct item = none) ∧
    ¬ ((0 : ℚ) < -5) ∧ ¬ ((0 : ℚ) > 5) := by
  have hd : summariseD direct item = item.value := by
    simp [summariseD, h]
  have hpct : summarisePct item.value (summariseD direct item) = 0 := by
    rw [hd]
    unfold summarisePct
    by_cases hz : item.value = 0
    · simp [hz]
    · field_simp
  have hb : lookupByName direct item.name = none := by
    have := h
    unfold lookupValue at this
    exact Option.map_eq_none'.mp this
  refine ⟨hpct, by rw [hpct]; norm_num [summariseFlag], ?_, ?_, by norm_num, by norm_num⟩
  · intro hnz
    simp [agg_row_pct, lookupValue, hb, pyDiv, hnz]
  · intro hz
    simp [agg_row_pct, lookupValue, hb, pyDiv, hz]

/-- Witness for `missing_direct_counted_neutral` at a concrete record. -/
theorem missing_direct_counted_neutral_witness :
    summarisePct (100 : ℚ) (summariseD [] { name := "a", unit := "ns", value := 100 }) = 0 ∧
    agg_row_pct [] { name := "a", unit := "ns", value := 100 } = some 0 := by
  have h := missing_direct_counted_neutral []
    { name := "a", unit := "ns", value := 100 } rfl
  exact ⟨h.1, h.2.2.1 (by norm_num)⟩

/-! ## Report Renderers (generate_io_mode_charts.py, generate_scaling_charts.py) -/

/-- One allowlisted benchmark row of the I/O-mode chart deck.  The Python
field `prefix` is a Lean reserved token and is rendered here as `pre`. -/
structure BenchSpec where
  label : String
  pre : String
deriving Repr, DecidableEq

/-- The 11-row compact deck allowlist `BENCHMARKS` of
generate_io_mode_charts.py. -/
def BENCHMARKS : List BenchSpec := [
  ⟨"Sequential Read", "Sequential Read ("⟩,
  ⟨"Random Read", "Random Read ("⟩,
  ⟨"Sequential Write", "Sequential Write ("⟩,
  ⟨"Random Write", "Random Write ("⟩,
  ⟨"Durability data-nosync", "Random Write durability immediate-fsync data-nosync"⟩,
  ⟨"Durability data-fsync", "Random Write durability immediate-fsync data-fsync"⟩,
  ⟨"One-pass Seq Scan", "One-pass Seq Scan ("⟩,
  ⟨"Low-locality Rand Read", "Low-locality Rand Read ("⟩,
  ⟨"One-pass Seq Scan+Evict", "One-pass Seq Scan+Evict ("⟩,
  ⟨"Low-locality Rand Read+Evict", "Low-locality Rand Read+Evict ("⟩,
  ⟨"Multi-stream Scan", "Multi-stream Scan"⟩]

/-- The failure modes of the I/O-mode renderer's `resolve_values` /
`find_bench_name` (each a raised `RuntimeError` in the Python). -/
inductive RendererError where
  | ambiguous (pre : String)
  | missingInBuffered (pre : String)
  | missingInDirect (key : String)
deriving Repr, DecidableEq

/-- Association lookup in a result map (`name -> value` dict; later
occurrences overwrite earlier ones). -/
def lookupAssoc (m : List (String × ℚ)) (k : String) : Option ℚ :=
  (m.reverse.find? (fun kv => kv.1 = k)).map (·.2)

/-- Embeds `find_bench_name`: collects the keys starting with the prefix;
no match is `None`, more than one raises, one match returns it (with its
value, which Python fetches right after by indexing). -/
def find_bench_name (m : List (String × ℚ)) (pre : String) :
    Except RendererError (Option (String × ℚ)) :=
  match m.filter (fun kv => pyStartsWith kv.1 pre) with
  | [] => .ok none
  | [kv] => .ok (some kv)
  | _ => .error (.ambiguous pre)

/-- Embeds `resolve_values` (generate_io_mode_charts.py lines 90–103): for
each allowlisted spec, a missing prefix in the buffered map or a missing
key in the direct map raises `RuntimeError` — the row is NOT skipped. -/
def resolve_values (buffered direct : List (String × ℚ)) :
    List BenchSpec → Except RendererError (List (String × ℚ × ℚ))
  | [] => .ok []
  | spec :: rest =>
      match find_bench_name buffered spec.pre with
      | .error e => .error e
      | .ok none => .error (.missingInBuffered spec.pre)
      | .ok (some kv) =>
          match lookupAssoc direct kv.1 with
          | none => .error (.missingInDirect kv.1)
          | some dval =>
              match resolve_values buffered direct rest with
              | .error e => .error e
              | .ok rows => .ok ((spec.label, kv.2, dval) :: rows)

def POLICY_ORDER : List String :=
  ["replacement_lru", "replacement_clock", "replacement_sieve"]

def THREAD_COUNTS : List ℕ := [1, 2, 4, 8, 16, 32, 64, 128, 256]

/-- Embeds `compute_throughput` of generate_scaling_charts.py: `None` in,
`None` out; a zero latency yields `None`; otherwise ops per second. -/
def compute_throughput (mean_ns : Option ℚ) (total_ops : ℚ) : Option ℚ :=
  match mean_ns with
  | none => none
  | some ns =>
      let seconds := ns / 1000000000
      if seconds = 0 then none else some (total_ops / seconds)

/-- One (policy, thread count) point of `extract_scaling_data`:
`benchNameOf` stands for `get_bench_name spec thread_count`
(string-template formatting whose output the claim treats as opaque), and
`platform_data` for the per-policy means maps.  Every absence — no
benchmark name for this thread count, no data for this policy (Python
truthiness also drops an empty dict), no matching mean, or a falsy zero
throughput — appends `None`. -/
def extract_scaling_point (platform_data : String → Option (List (String × ℚ)))
    (benchNameOf : ℕ → Option String) (total_ops : ℚ)
    (policy : String) (tc : ℕ) : Option ℚ :=
  match benchNameOf tc with
  | none => none
  | some bench_name =>
      match platform_data policy with
      | none => none
      | some means =>
          if means.isEmpty then none
          else
            match compute_throughput (lookupAssoc means bench_name) total_ops with
            | none => none
            | some t => if t = 0 then none else some (t / 1000000)

/-- Embeds `extract_scaling_data`: one optional throughput value per
(policy, thread count). -/
def extract_scaling_data (platform_data : String → Option (List (String × ℚ)))
    (benchNameOf : ℕ → Option String) (total_ops : ℚ) :
    List (String × List (Option ℚ)) :=
  POLICY_ORDER.map fun policy =>
    (policy, THREAD_COUNTS.map (extract_scaling_point platform_data benchNameOf total_ops policy))

/-- Embeds the plot stage of `create_scaling_chart` (lines 250–256): the
`None` gaps are filtered out of each policy's series before plotting. -/
def scaling_chart_series (platform_data : String → Option (List (String × ℚ)))
    (benchNameOf : ℕ → Option String) (total_ops : ℚ) :
    List (String × List (ℕ × ℚ)) :=
  (extract_scaling_data platform_data benchNameOf total_ops).map fun pv =>
    (pv.1, (THREAD_COUNTS.zip pv.2).filterMap fun tv => tv.2.map (fun v => (tv.1, v)))

/-- C8 counterexample: with empty result maps, the I/O-mode renderer does
not treat the absent (mode, regime) combinations as gaps — `resolve_values`
fails with a `RuntimeError` on the first allowlisted benchmark. -/
theorem io_mode_renderer_fails_on_absent :
    resolve_values [] [] BENCHMARKS =
      .error (.missingInBuffered "Sequential Read (") := by
  rfl

/-- C8 amended: the scaling-chart renderer treats every absent (policy,
thread-count) combination as a gap — a policy with no stored data yields
all-`None` points and an empty plotted series, a name absent from a
policy's means map yields a `None` point, and the renderer never fails —
whereas the I/O-mode chart renderer fails on any absent combination: it
returns rows at all only when every allowlisted benchmark resolves in the
buffered map AND is present in the direct map. -/
theorem scaling_gaps_io_mode_fails
    (platform_data : String → Option (List (String × ℚ)))
    (benchNameOf : ℕ → Option String) (total_ops : ℚ) (policy : String)
    (hpol : policy ∈ POLICY_ORDER) (hnone : platform_data policy = none) :
    ((policy, THREAD_COUNTS.map fun _ => (none : Option ℚ)) ∈
        extract_scaling_data platform_data benchNameOf total_ops) ∧
    ((policy, ([] : List (ℕ × ℚ))) ∈
        scaling_chart_series platform_data benchNameOf total_ops) ∧
    (∀ (means : List (String × ℚ)) (pd : String → Option (List (String × ℚ)))
        (name : String) (tc : ℕ) (bn : ℕ → Option String),
      bn tc = some name → pd policy = some means → lookupAssoc means name = none →
        extract_scaling_point pd bn total_ops policy tc = none) ∧
    (∀ (buffered direct : List (String × ℚ)) (specs : List BenchSpec)
        (rows : List (String × ℚ × ℚ)),
      resolve_values buffered direct specs = .ok rows →
        rows.length = specs.length ∧
        ∀ s ∈ specs, ∃ kv, kv ∈ buffered ∧ pyStartsWith kv.1 s.pre = true ∧
          lookupAssoc direct kv.1 ≠ none) := by
  have hpoint : ∀ tc, extract_scaling_point platform_data benchNameOf total_ops policy tc = none := by
    intro tc
    unfold extract_scaling_point
    cases benchNameOf tc with
    | none => rfl
    | some bn => rw [hnone]
  refine ⟨?_, ?_, ?_, ?_⟩
  · have : THREAD_COUNTS.map (extract_scaling_point platform_data benchNameOf total_ops policy) =
        THREAD_COUNTS.map fun _ => (none : Option ℚ) :=
      List.map_congr_left fun tc _ => hpoint tc
    exact List.mem_map.mpr ⟨policy, hpol, by rw [this]⟩
  · refine List.mem_map.mpr ⟨(policy,
      THREAD_COUNTS.map (extract_scaling_point platform_data benchNameOf total_ops policy)),
      List.mem_map.mpr ⟨policy, hpol, rfl⟩, ?_⟩
    simp only
    congr 1
    rw [show THREAD_COUNTS.map (extract_scaling_point platform_data benchNameOf total_ops policy) =
        THREAD_COUNTS.map fun _ => (none : Option ℚ) from
      List.map_congr_left fun tc _ => hpoint tc]
    rfl
  · intro means pd name tc bn hbn hpd hlk
    unfold extract_scaling_point
    rw [hbn, hpd]
    by_cases hme : means = []
    · subst hme; rfl
    · have hne : means.isEmpty = false := by
        cases means with
        | nil => exact absurd rfl hme
        | cons a l => rfl
      simp only [hne, Bool.false_eq_true, if_false]
      rw [hlk]
      rfl
  · intro buffered direct specs
    induction specs with
    | nil =>
        intro rows h
        cases h
        exact ⟨rfl, by simp⟩
    | cons s rest ih =>
        intro rows h
        unfold resolve_values at h
        split at h
        · cases h
        · cases h
        · rename_i kv hf
          split at h
          · cases h
          · rename_i dval hl
            split at h
            · cases h
            · rename_i rows' hrest
              cases h
              have hkv : kv ∈ buffered.filter (fun kv => pyStartsWith kv.1 s.pre) := by
                unfold find_bench_name at hf
                split at hf
                · cases hf
                · rename_i x hfil
                  obtain rfl : x = kv := by simpa using hf
                  rw [hfil]; simp
                · cases hf
              have hmem := List.mem_filter.mp hkv
              obtain ⟨hlen, hrest'⟩ := ih rows' hrest
              refine ⟨by simp [hlen], ?_⟩
              intro t ht
              rcases List.mem_cons.mp ht with rfl | ht'
              · exact ⟨kv, hmem.1, hmem.2, by rw [hl]; simp⟩
              · exact hrest' t ht'

/-- Witness for `scaling_gaps_io_mode_fails` at concrete inputs: an absent
policy yields the empty plotted series, and a fully populated pair of maps
makes `resolve_values` succeed with one row per spec. -/
theorem scaling_gaps_io_mode_fails_witness :
    (("replacement_sieve" : String), ([] : List (ℕ × ℚ))) ∈
      scaling_chart_series (fun p => if p = "replacement_sieve" then none else some [("x", 1)])
        (fun _ => some "x") 100 ∧
    ∃ rows, resolve_values [("Sequential Read (4KB)", 10)] [("Sequential Read (4KB)", 12)]
      [⟨"Sequential Read", "Sequential Read ("⟩] = .ok rows ∧ rows.length = 1 := by
  have h := scaling_gaps_io_mode_fails
    (fun p => if p = "replacement_sieve" then none else some [("x", 1)])
    (fun _ => some "x") 100 "replacement_sieve" (by decide) (by decide)
  refine ⟨h.2.1, [("Sequential Read", 10, 12)], rfl, rfl⟩

end SimpleDB
